import Mathlib

/-!
Shallow embedding of `interactive_three_statement_sec.py`.

Numbers are modelled by `ℚ` (Python floats treated as exact rationals).
Python `dict.get` misses are modelled with `Option`; an uncaught Python
exception (e.g. `ValueError` from `int(...)`, or subscripting `None`) is
modelled as `none` of an enclosing `Option`.  pandas `NaN` cells are
modelled as `none` cells of the row records.
-/

set_option linter.unusedVariables false
set_option maxRecDepth 8000
set_option maxHeartbeats 1000000

namespace ThreeStmt

/-- One reported fact record from the companyfacts JSON.  Fields the source
reads with `.get(...)` (`fp`, `end`, `filed`, `fy`) are optional; `val` is
read with `latest["val"]` and is required by the wire format.  `end` is a
Lean keyword, so the field is named `end_`. -/
structure FactRec where
  fp : Option String
  end_ : Option String
  filed : Option String
  fy : Option Int
  val : ℚ
deriving DecidableEq

/-- The `units` mapping of one tag: unit (currency) name to record list. -/
structure TagFacts where
  units : List (String × List FactRec)
deriving DecidableEq

/-- The `facts["facts"]["us-gaap"]` mapping: tag name to its unit table. -/
abbrev Facts := List (String × TagFacts)

/-- `facts["facts"]["us-gaap"][tag]["units"]["USD"]`; `none` is the `KeyError`
that `pick_latest_annual_usd` catches. -/
def lookupUSD (facts : Facts) (tag : String) : Option (List FactRec) :=
  (facts.lookup tag).bind fun t => t.units.lookup "USD"

/-- `x.get("fp") == "FY"`. -/
def isFY (r : FactRec) : Bool := r.fp == some "FY"

/-- Python sort key `(x.get("end", ""), x.get("filed", ""))`. -/
def sortKey (r : FactRec) : String × String := (r.end_.getD "", r.filed.getD "")

/-- Lexicographic comparison of the sort keys (Python tuple comparison of
strings). -/
def pairLe (a b : String × String) : Prop :=
  a.1 < b.1 ∨ (a.1 = b.1 ∧ a.2 ≤ b.2)

instance (a b : String × String) : Decidable (pairLe a b) := by
  unfold pairLe
  exact inferInstance

/-- `sorted(annual, key=...)[-1]`: the maximal record under the key order;
with Python's stable sort this is the last listed among key ties.  `none`
exactly when the list is empty. -/
def pickBest : List FactRec → Option FactRec
  | [] => none
  | x :: xs =>
    some (xs.foldl (fun b r => if pairLe (sortKey b) (sortKey r) then r else b) x)

/-- `latest.get("fy") or int(latest.get("end", "0000")[:4])`: `fy` when
present and nonzero (Python truthiness), otherwise the first four characters
of `end` parsed as an integer; `none` models the `ValueError` raised when
that parse fails. -/
def recYear (r : FactRec) : Option Int :=
  match r.fy with
  | some y => if y ≠ 0 then some y else ((r.end_.getD "0000").take 4).toInt?
  | none => ((r.end_.getD "0000").take 4).toInt?

/-- `pick_latest_annual_usd`: the outer `none` models an uncaught exception
(year not parseable); `some none` models the function returning Python
`None`. -/
def pick_latest_annual_usd (facts : Facts) (tag : String) :
    Option (Option (Int × ℚ)) :=
  match lookupUSD facts tag with
  | none => some none
  | some items =>
    match pickBest (items.filter isFY) with
    | none => some none
    | some latest => (recYear latest).map fun y => some (y, latest.val)

/-- The local helper `get` in `build_base_year_from_sec`:
`out[1] if out else 0.0`, exceptions propagating. -/
def getC (facts : Facts) (tag : String) : Option ℚ :=
  (pick_latest_annual_usd facts tag).map fun
    | some p => p.2
    | none => 0

/-- The value a concept contributes to the built `BaseYear` (0.0 when the
lookup returned `None`). -/
def conceptVal (facts : Facts) (tag : String) : ℚ :=
  match pick_latest_annual_usd facts tag with
  | some (some p) => p.2
  | _ => 0

/-- The `BaseYear` dataclass. -/
structure BaseYear where
  year : Int
  revenue : ℚ
  cogs : ℚ
  sga : ℚ
  da : ℚ
  interest : ℚ
  tax_rate : ℚ
  net_income : ℚ
  cash : ℚ
  ar : ℚ
  inventory : ℚ
  other_current_assets : ℚ
  ppe_net : ℚ
  other_noncurrent_assets : ℚ
  ap : ℚ
  accrued_liabilities : ℚ
  other_current_liabilities : ℚ
  long_term_debt : ℚ
  other_noncurrent_liabilities : ℚ
  common_equity : ℚ
deriving DecidableEq

/-- The `Assumptions` dataclass. -/
structure Assumptions where
  years : Int
  revenue_growth : ℚ
  cogs_pct_rev : ℚ
  sga_pct_rev : ℚ
  da_pct_rev : ℚ
  interest_pct_debt : ℚ
  tax_rate : ℚ
  ar_pct_rev : ℚ
  inv_pct_rev : ℚ
  ap_pct_rev : ℚ
  accrued_pct_rev : ℚ
  capex_pct_rev : ℚ
  target_debt_pct_assets : ℚ
deriving DecidableEq

/-- The sixteen concept tags `build_base_year_from_sec` looks up, in source
order. -/
def conceptTags : List String :=
  ["Revenues", "CostOfRevenue", "SellingGeneralAndAdministrativeExpense",
   "DepreciationDepletionAndAmortization", "InterestExpense", "NetIncomeLoss",
   "Assets", "Liabilities", "CashAndCashEquivalentsAtCarryingValue",
   "AccountsReceivableNetCurrent", "InventoryNet", "PropertyPlantAndEquipmentNet",
   "AccountsPayableCurrent", "AccruedLiabilitiesCurrent", "LongTermDebtNoncurrent",
   "StockholdersEquity"]

/-- The left-to-right, short-circuiting sequence of `get(tag)` calls: the
source's sixteen sequential assignments, where the first uncaught exception
aborts the whole call. -/
def getAll (facts : Facts) : List String → Option (List ℚ)
  | [] => some []
  | t :: ts => (getC facts t).bind fun v => (getAll facts ts).map fun vs => v :: vs

/-- `build_base_year_from_sec`, from the facts mapping onward (the ticker
lookup and HTTP fetch that precede it are external collaborators).  `none`
models any uncaught exception: the `TypeError` from
`pick_latest_annual_usd(facts, "Revenues")[0]` when the lookup returned
`None`, or a `ValueError` from year parsing inside any lookup.  The source's
sixteen sequential `get(tag)` calls are `getAll` over `conceptTags`;
`equity = get("StockholdersEquity") or (assets - liabilities)` keeps the
reported value only when it is truthy, i.e. nonzero. -/
def build_base_year_from_sec (facts : Facts) : Option BaseYear :=
  match getAll facts conceptTags with
  | some [revenue, cogs, sga, da, interest, net_income, assets, liabilities,
          cash, ar, inventory, ppe, ap, accrued, debt, equity0] =>
    let equity := if equity0 = 0 then assets - liabilities else equity0
    let other_assets := max 0 (assets - (cash + ar + inventory + ppe))
    let other_liab := max 0 (liabilities - (ap + accrued + debt))
    (pick_latest_annual_usd facts "Revenues").bind fun yearPick =>
    yearPick.bind fun yv =>
    some
    { year := yv.1
      revenue := revenue
      cogs := cogs
      sga := sga
      da := da
      interest := interest
      tax_rate := 21 / 100
      net_income := net_income
      cash := cash
      ar := ar
      inventory := inventory
      other_current_assets := other_assets * (1 / 2)
      ppe_net := ppe
      other_noncurrent_assets := other_assets * (1 / 2)
      ap := ap
      accrued_liabilities := accrued
      other_current_liabilities := other_liab * (1 / 2)
      long_term_debt := debt
      other_noncurrent_liabilities := other_liab * (1 / 2)
      common_equity := equity }
  | _ => none

/-! ### The forecast engine

The loop in `forecast` reads, from the previous year's rows, exactly the
five cells Revenue, Cash, Debt, Equity and Assets (all of which the code has
always populated, for the base year by the seeding of lines 168-170 and for
projected years by the loop body), so the carried state is modelled by
`FState` and one loop iteration by `stepYear`. -/

/-- The cells of a prior year that the loop body reads. -/
structure FState where
  revenue : ℚ
  cash : ℚ
  debt : ℚ
  equity : ℚ
  assets : ℚ
deriving DecidableEq

/-- Every quantity one loop iteration computes, locals included
(`interest`, `taxes`, `capex` are local variables of the loop body; the
rest are written into the tables). -/
structure ProjYear where
  revenue : ℚ
  ebit : ℚ
  interest : ℚ
  taxes : ℚ
  net_income : ℚ
  equity : ℚ
  debt : ℚ
  capex : ℚ
  cfo : ℚ
  cfi : ℚ
  cff : ℚ
  dCash : ℚ
  cash : ℚ
  assets : ℚ
deriving DecidableEq

/-- The seeded base-year cells (lines 168-170 of the source); the base-year
Assets cell is `cash + ppe_net + other_current_assets +
other_noncurrent_assets`. -/
def baseState (b : BaseYear) : FState :=
  { revenue := b.revenue
    cash := b.cash
    debt := b.long_term_debt
    equity := b.common_equity
    assets := b.cash + b.ppe_net + b.other_current_assets + b.other_noncurrent_assets }

/-- One iteration of the forecast loop (lines 172-191 of the source),
reading the prior year's cells `s`. -/
def stepYear (a : Assumptions) (s : FState) : ProjYear :=
  let revenue := s.revenue * (1 + a.revenue_growth)
  let ebit := revenue * (1 - a.cogs_pct_rev - a.sga_pct_rev - a.da_pct_rev)
  let interest := s.debt * a.interest_pct_debt
  let taxes := max 0 ((ebit - interest) * a.tax_rate)
  let ni := ebit - interest - taxes
  let equity := s.equity + ni
  let debt := a.target_debt_pct_assets * s.assets
  let capex := revenue * a.capex_pct_rev
  let cfo := ni
  let cfi := -capex
  let cff := debt - s.debt
  let dCash := cfo + cfi + cff
  let cash := s.cash + dCash
  let assets := cash + debt + equity
  { revenue := revenue
    ebit := ebit
    interest := interest
    taxes := taxes
    net_income := ni
    equity := equity
    debt := debt
    capex := capex
    cfo := cfo
    cfi := cfi
    cff := cff
    dCash := dCash
    cash := cash
    assets := assets }

/-- The cells of a projected year that the next iteration reads. -/
def toState (p : ProjYear) : FState :=
  { revenue := p.revenue
    cash := p.cash
    debt := p.debt
    equity := p.equity
    assets := p.assets }

/-- The carried state after `n` loop iterations (`n = 0` is the seeded base
year). -/
def stateAt (b : BaseYear) (a : Assumptions) : ℕ → FState
  | 0 => baseState b
  | n + 1 => toState (stepYear a (stateAt b a n))

/-- The values the loop computes for projected year `base.year + n + 1`. -/
def projAt (b : BaseYear) (a : Assumptions) (n : ℕ) : ProjYear :=
  stepYear a (stateAt b a n)

/-- The number of projected years: `len(range(1, a.years + 1))`, which is
`a.years` clamped below at 0 (Python `range` is empty for `a.years < 1`). -/
def numProj (a : Assumptions) : ℕ := a.years.toNat

/-- A row of the income-statement table; `none` is a NaN cell. -/
structure ISRow where
  Revenue : Option ℚ
  EBIT : Option ℚ
  NetIncome : Option ℚ
deriving DecidableEq

/-- A row of the balance-sheet table; `none` is a NaN cell. -/
structure BSRow where
  Cash : Option ℚ
  Debt : Option ℚ
  Equity : Option ℚ
  Assets : Option ℚ
deriving DecidableEq

/-- A row of the cash-flow table; `none` is a NaN cell. -/
structure CFRow where
  CFO : Option ℚ
  CFI : Option ℚ
  CFF : Option ℚ
  dCash : Option ℚ
deriving DecidableEq

/-- The seeded base-year income-statement row: Revenue and Net Income are
assigned (line 168), EBIT is never assigned and stays NaN. -/
def isRowBase (b : BaseYear) : ISRow :=
  { Revenue := some b.revenue, EBIT := none, NetIncome := some b.net_income }

/-- The seeded base-year balance-sheet row (lines 169-170). -/
def bsRowBase (b : BaseYear) : BSRow :=
  { Cash := some b.cash
    Debt := some b.long_term_debt
    Equity := some b.common_equity
    Assets := some (b.cash + b.ppe_net + b.other_current_assets + b.other_noncurrent_assets) }

/-- The base-year cash-flow row: the CF DataFrame is created with the base
year in its index but no cell of that row is ever assigned, so it is
entirely NaN. -/
def cfRowBase : CFRow :=
  { CFO := none, CFI := none, CFF := none, dCash := none }

/-- The income-statement row written for a projected year. -/
def isRowProj (p : ProjYear) : ISRow :=
  { Revenue := some p.revenue, EBIT := some p.ebit, NetIncome := some p.net_income }

/-- The balance-sheet row written for a projected year. -/
def bsRowProj (p : ProjYear) : BSRow :=
  { Cash := some p.cash, Debt := some p.debt, Equity := some p.equity, Assets := some p.assets }

/-- The cash-flow row written for a projected year. -/
def cfRowProj (p : ProjYear) : CFRow :=
  { CFO := some p.cfo, CFI := some p.cfi, CFF := some p.cff, dCash := some p.dCash }

/-- The dict `{"IS": ..., "BS": ..., "CF": ...}` of year-indexed tables. -/
structure ForecastTables where
  IS : List (Int × ISRow)
  BS : List (Int × BSRow)
  CF : List (Int × CFRow)
deriving DecidableEq

/-- The tables as the loop leaves them (and, the final `.round(2)` being a
no-op on these object-dtype frames, also as returned).  Row 0
is the seeded base year; row `i + 1` is projected year `base.year + i + 1`,
computed by the `i`-th loop iteration from the state after `i` iterations. -/
def forecastU (b : BaseYear) (a : Assumptions) : ForecastTables :=
  { IS := (b.year, isRowBase b) ::
      (List.range (numProj a)).map fun (i : ℕ) => (b.year + (i : Int) + 1, isRowProj (projAt b a i))
    BS := (b.year, bsRowBase b) ::
      (List.range (numProj a)).map fun (i : ℕ) => (b.year + (i : Int) + 1, bsRowProj (projAt b a i))
    CF := (b.year, cfRowBase) ::
      (List.range (numProj a)).map fun (i : ℕ) => (b.year + (i : Int) + 1, cfRowProj (projAt b a i)) }

/-- `forecast`: the returned tables.  The source's final
`IS.round(2)`/`BS.round(2)`/`CF.round(2)` calls are no-ops: each DataFrame is
created by `pd.DataFrame(index=..., columns=...)` with no data and no dtype,
which gives its columns object dtype, the partial `.loc` cell writes never
change that dtype, and `DataFrame.round` leaves non-numeric (object) columns
unchanged.  The tables are therefore returned exactly as the loop left
them. -/
def forecast (b : BaseYear) (a : Assumptions) : ForecastTables := forecastU b a

/-! ### Concrete inputs used by witnesses and counterexamples -/

/-- The base year of the spec's worked scenario (unconstrained fields set to
arbitrary nonzero values). -/
def bEx : BaseYear :=
  { year := 2023, revenue := 100, cogs := 1, sga := 2, da := 3, interest := 4,
    tax_rate := 5, net_income := 10, cash := 20, ar := 6, inventory := 7,
    other_current_assets := 8, ppe_net := 9, other_noncurrent_assets := 11,
    ap := 12, accrued_liabilities := 13, other_current_liabilities := 14,
    long_term_debt := 30, other_noncurrent_liabilities := 15, common_equity := 50 }

/-- The assumptions of the spec's worked scenario. -/
def aEx : Assumptions :=
  { years := 1, revenue_growth := 1/10, cogs_pct_rev := 1/2, sga_pct_rev := 1/5,
    da_pct_rev := 1/20, interest_pct_debt := 1/20, tax_rate := 21/100,
    ar_pct_rev := 0, inv_pct_rev := 0, ap_pct_rev := 0, accrued_pct_rev := 0,
    capex_pct_rev := 3/100, target_debt_pct_assets := 1/10 }

/-- A base year with sub-cent cash and equity (0.004 each). -/
def bSubCent : BaseYear :=
  { year := 2023, revenue := 0, cogs := 0, sga := 0, da := 0, interest := 0,
    tax_rate := 0, net_income := 0, cash := 1/250, ar := 0, inventory := 0,
    other_current_assets := 0, ppe_net := 0, other_noncurrent_assets := 0,
    ap := 0, accrued_liabilities := 0, other_current_liabilities := 0,
    long_term_debt := 0, other_noncurrent_liabilities := 0, common_equity := 1/250 }

/-- One projected year, no growth, debt retargeted to 100% of prior assets. -/
def aSubCent : Assumptions :=
  { years := 1, revenue_growth := 0, cogs_pct_rev := 0, sga_pct_rev := 0,
    da_pct_rev := 0, interest_pct_debt := 0, tax_rate := 0,
    ar_pct_rev := 0, inv_pct_rev := 0, ap_pct_rev := 0, accrued_pct_rev := 0,
    capex_pct_rev := 0, target_debt_pct_assets := 1 }

/-- A base year with a sub-cent revenue (0.001). -/
def bTiny : BaseYear :=
  { year := 2023, revenue := 1/1000, cogs := 0, sga := 0, da := 0, interest := 0,
    tax_rate := 0, net_income := 0, cash := 0, ar := 0, inventory := 0,
    other_current_assets := 0, ppe_net := 0, other_noncurrent_assets := 0,
    ap := 0, accrued_liabilities := 0, other_current_liabilities := 0,
    long_term_debt := 0, other_noncurrent_liabilities := 0, common_equity := 0 }

/-- A degenerate horizon (`years = 0`). -/
def aZero : Assumptions :=
  { years := 0, revenue_growth := 0, cogs_pct_rev := 0, sga_pct_rev := 0,
    da_pct_rev := 0, interest_pct_debt := 0, tax_rate := 0,
    ar_pct_rev := 0, inv_pct_rev := 0, ap_pct_rev := 0, accrued_pct_rev := 0,
    capex_pct_rev := 0, target_debt_pct_assets := 0 }

/-- Assumptions making EBIT − Interest negative (COGS at 200% of revenue). -/
def aLoss : Assumptions :=
  { years := 1, revenue_growth := 0, cogs_pct_rev := 2, sga_pct_rev := 0,
    da_pct_rev := 0, interest_pct_debt := 0, tax_rate := 21/100,
    ar_pct_rev := 0, inv_pct_rev := 0, ap_pct_rev := 0, accrued_pct_rev := 0,
    capex_pct_rev := 0, target_debt_pct_assets := 1/10 }

/-! ### Theorems: forecast engine -/

/-- `C3`/`C8` helper: row `i + 1` of the unrounded income statement. -/
lemma forecastU_IS_getElem_succ (b : BaseYear) (a : Assumptions) {i : ℕ}
    (h : i < numProj a) :
    (forecastU b a).IS[i + 1]? =
      some (b.year + (i : Int) + 1, isRowProj (projAt b a i)) := by
  simp [forecastU, List.getElem?_map, List.getElem?_range, h]

/-- Row `i + 1` of the unrounded balance sheet. -/
lemma forecastU_BS_getElem_succ (b : BaseYear) (a : Assumptions) {i : ℕ}
    (h : i < numProj a) :
    (forecastU b a).BS[i + 1]? =
      some (b.year + (i : Int) + 1, bsRowProj (projAt b a i)) := by
  simp [forecastU, List.getElem?_map, List.getElem?_range, h]

/-- Row `i + 1` of the unrounded cash-flow table. -/
lemma forecastU_CF_getElem_succ (b : BaseYear) (a : Assumptions) {i : ℕ}
    (h : i < numProj a) :
    (forecastU b a).CF[i + 1]? =
      some (b.year + (i : Int) + 1, cfRowProj (projAt b a i)) := by
  simp [forecastU, List.getElem?_map, List.getElem?_range, h]

/-- The Revenue cell of row `i` of the unrounded income statement is the
revenue component of the carried state. -/
lemma forecastU_IS_getElem_state (b : BaseYear) (a : Assumptions) {i : ℕ}
    (h : i < numProj a) :
    ((forecastU b a).IS[i]?).map (fun q => q.2.Revenue) =
      some (some (stateAt b a i).revenue) := by
  cases i with
  | zero => simp [forecastU, stateAt, baseState, isRowBase]
  | succ j =>
    have hj : j < numProj a := Nat.lt_of_succ_lt h
    rw [forecastU_IS_getElem_succ b a hj]
    rfl

/-- The cells of row `i` of the unrounded balance sheet are the remaining
components of the carried state. -/
lemma forecastU_BS_getElem_state (b : BaseYear) (a : Assumptions) {i : ℕ}
    (h : i < numProj a) :
    ((forecastU b a).BS[i]?).map (fun q => q.2) =
      some { Cash := some (stateAt b a i).cash, Debt := some (stateAt b a i).debt,
             Equity := some (stateAt b a i).equity,
             Assets := some (stateAt b a i).assets } := by
  cases i with
  | zero => simp [forecastU, stateAt, baseState, bsRowBase]
  | succ j =>
    have hj : j < numProj a := Nat.lt_of_succ_lt h
    rw [forecastU_BS_getElem_succ b a hj]
    rfl

/-- C4: for every projected year of the run, taxes are the zero-floored
`max(0, (EBIT - Interest) * tax_rate)` and hence nonnegative, also when
`EBIT - Interest` is negative. -/
theorem c4_taxes_floor (b : BaseYear) (a : Assumptions) (i : ℕ)
    (h : i < numProj a) :
    0 ≤ (projAt b a i).taxes ∧
    (projAt b a i).taxes =
      max 0 (((projAt b a i).ebit - (projAt b a i).interest) * a.tax_rate) :=
  ⟨le_max_left _ _, rfl⟩

/-- C4 witness: at `bEx`/`aLoss` the pre-tax result is negative and the
taxes are still nonnegative (namely the floored formula value). -/
theorem c4_taxes_floor_witness :
    (0 ≤ (projAt bEx aLoss 0).taxes ∧
      (projAt bEx aLoss 0).taxes =
        max 0 (((projAt bEx aLoss 0).ebit - (projAt bEx aLoss 0).interest) *
          aLoss.tax_rate)) ∧
    (projAt bEx aLoss 0).ebit - (projAt bEx aLoss 0).interest < 0 :=
  ⟨c4_taxes_floor bEx aLoss 0 (by decide), by with_unfolding_all decide⟩

/-- C3: in the returned balance sheet, every projected row's Assets cell is
exactly Cash + Debt + Equity of that same row: line 191 assigns it so, and
the tables are returned exactly as the loop left them. -/
theorem c3_balance_identity (b : BaseYear) (a : Assumptions) (i : ℕ)
    (h : i < numProj a) :
    (forecast b a).BS[i + 1]? =
      some (b.year + (i : Int) + 1, bsRowProj (projAt b a i)) ∧
    (projAt b a i).assets =
      (projAt b a i).cash + (projAt b a i).debt + (projAt b a i).equity :=
  ⟨forecastU_BS_getElem_succ b a h, rfl⟩

/-- C3 witness: the identity at a concrete projected row. -/
theorem c3_balance_identity_witness :
    (forecast bEx aEx).BS[0 + 1]? =
      some (bEx.year + ((0 : ℕ) : Int) + 1, bsRowProj (projAt bEx aEx 0)) ∧
    (projAt bEx aEx 0).assets =
      (projAt bEx aEx 0).cash + (projAt bEx aEx 0).debt + (projAt bEx aEx 0).equity :=
  c3_balance_identity bEx aEx 0 (by decide)

/-- C8 (amended): the cash-flow table's first row is keyed by the base year
with every cell NaN (the CF DataFrame is created over the full year index
and its base-year row is never assigned), the remaining rows are the
projected years, and the income-statement and balance-sheet tables have
populated base-year rows. -/
theorem c8_cf_base_row (b : BaseYear) (a : Assumptions) :
    (forecast b a).CF =
      (b.year, cfRowBase) ::
        (List.range (numProj a)).map
          (fun (i : ℕ) =>
            (b.year + (i : Int) + 1, cfRowProj (projAt b a i))) ∧
    (forecast b a).CF.head? = some (b.year, cfRowBase) ∧
    (forecast b a).IS.head? = some (b.year, isRowBase b) ∧
    (forecast b a).BS.head? = some (b.year, bsRowBase b) :=
  ⟨rfl, rfl, rfl, rfl⟩

/-- C8 counterexample: the returned cash-flow table does have a row keyed by
the base year (all of whose cells are NaN), contradicting the claim that no
such row exists. -/
theorem c8_cf_base_row_counterexample :
    ((forecast bSubCent aSubCent).CF).lookup (2023 : Int) = some cfRowBase ∧
    ((forecast bSubCent aSubCent).CF).lookup (2023 : Int) ≠ none := by
  with_unfolding_all decide

/-- The year-over-year recurrence the loop implements at step `i`
(projecting year `b.year + i + 1` from year `b.year + i`): the three row
writes into the tables, the link between row `i` of the tables and the
carried state, and the thirteen defining equations of the loop body. -/
def recurrenceAt (b : BaseYear) (a : Assumptions) (i : ℕ) : Prop :=
  (forecastU b a).IS[i + 1]? =
    some (b.year + (i : Int) + 1, isRowProj (projAt b a i)) ∧
  (forecastU b a).BS[i + 1]? =
    some (b.year + (i : Int) + 1, bsRowProj (projAt b a i)) ∧
  (forecastU b a).CF[i + 1]? =
    some (b.year + (i : Int) + 1, cfRowProj (projAt b a i)) ∧
  ((forecastU b a).IS[i]?).map (fun q => q.2.Revenue) =
    some (some (stateAt b a i).revenue) ∧
  ((forecastU b a).BS[i]?).map (fun q => q.2) =
    some { Cash := some (stateAt b a i).cash, Debt := some (stateAt b a i).debt,
           Equity := some (stateAt b a i).equity,
           Assets := some (stateAt b a i).assets } ∧
  (projAt b a i).revenue = (stateAt b a i).revenue * (1 + a.revenue_growth) ∧
  (projAt b a i).ebit =
    (projAt b a i).revenue * (1 - a.cogs_pct_rev - a.sga_pct_rev - a.da_pct_rev) ∧
  (projAt b a i).interest = (stateAt b a i).debt * a.interest_pct_debt ∧
  (projAt b a i).taxes =
    max 0 (((projAt b a i).ebit - (projAt b a i).interest) * a.tax_rate) ∧
  (projAt b a i).net_income =
    (projAt b a i).ebit - (projAt b a i).interest - (projAt b a i).taxes ∧
  (projAt b a i).equity = (stateAt b a i).equity + (projAt b a i).net_income ∧
  (projAt b a i).debt = a.target_debt_pct_assets * (stateAt b a i).assets ∧
  (projAt b a i).capex = (projAt b a i).revenue * a.capex_pct_rev ∧
  (projAt b a i).cfo = (projAt b a i).net_income ∧
  (projAt b a i).cfi = -(projAt b a i).capex ∧
  (projAt b a i).cff = (projAt b a i).debt - (stateAt b a i).debt ∧
  (projAt b a i).dCash = (projAt b a i).cfo + (projAt b a i).cfi + (projAt b a i).cff ∧
  (projAt b a i).cash = (stateAt b a i).cash + (projAt b a i).dCash

/-- C1: for every horizon of at least one year and every projected year of
the run, the row of each table is computed from the prior
year's row and the assumptions exactly by the claimed equations, with
interest charged on the prior year's debt and debt resized to
`target_debt_pct_assets` times the prior year's assets. -/
theorem c1_recurrence (b : BaseYear) (a : Assumptions) (h1 : 1 ≤ a.years)
    (i : ℕ) (h2 : i < numProj a) : recurrenceAt b a i := by
  unfold recurrenceAt
  exact ⟨forecastU_IS_getElem_succ b a h2, forecastU_BS_getElem_succ b a h2,
    forecastU_CF_getElem_succ b a h2, forecastU_IS_getElem_state b a h2,
    forecastU_BS_getElem_state b a h2, rfl, rfl, rfl, rfl, rfl, rfl, rfl,
    rfl, rfl, rfl, rfl, rfl, rfl⟩

/-- C1 witness: the recurrence at the concrete scenario input, first
projected year. -/
theorem c1_recurrence_witness : recurrenceAt bEx aEx 0 :=
  c1_recurrence bEx aEx (by decide) 0 (by decide)

/-- The year index of the tables: `[base.year] + [base.year + i for i in
range(1, a.years + 1)]` (line 162 of the source). -/
def yearsList (b : BaseYear) (a : Assumptions) : List Int :=
  b.year :: (List.range (numProj a)).map fun (i : ℕ) => b.year + (i : Int) + 1

/-- The year index is the consecutive range starting at the base year. -/
lemma yearsList_eq_range (b : BaseYear) (a : Assumptions) :
    yearsList b a =
      (List.range (numProj a + 1)).map fun (i : ℕ) => b.year + (i : Int) := by
  have hf : (fun i : ℕ => b.year + (i : Int) + 1) =
      ((fun i : ℕ => b.year + (i : Int)) ∘ Nat.succ) := by
    funext i
    simp only [Function.comp]
    push_cast
    ring
  simp only [yearsList, List.range_succ_eq_map, List.map_cons, List.map_map, hf]
  simp

/-- The year index is strictly increasing. -/
lemma yearsList_pairwise (b : BaseYear) (a : Assumptions) :
    (yearsList b a).Pairwise fun x y => x < y := by
  rw [yearsList_eq_range]
  exact (List.pairwise_lt_range _).map _ fun x y h => by omega

/-- C2: with `years ≥ 1` each returned table has exactly `years + 1` rows,
keyed by the strictly increasing consecutive fiscal years starting at
`base.year`; with `years < 1` (zero or negative) each table degenerates to
exactly one row keyed `base.year` holding the seeded base-year values (the
cash-flow base row is the never-assigned all-NaN row). -/
theorem c2_shape (b : BaseYear) (a : Assumptions) :
    (1 ≤ a.years →
      ((forecast b a).IS.length : Int) = a.years + 1 ∧
      ((forecast b a).BS.length : Int) = a.years + 1 ∧
      ((forecast b a).CF.length : Int) = a.years + 1 ∧
      (forecast b a).IS.map Prod.fst = yearsList b a ∧
      (forecast b a).BS.map Prod.fst = yearsList b a ∧
      (forecast b a).CF.map Prod.fst = yearsList b a ∧
      (yearsList b a).head? = some b.year ∧
      (yearsList b a).Pairwise fun x y => x < y) ∧
    (a.years < 1 →
      (forecast b a).IS = [(b.year, isRowBase b)] ∧
      (forecast b a).BS = [(b.year, bsRowBase b)] ∧
      (forecast b a).CF = [(b.year, cfRowBase)]) := by
  constructor
  · intro h1
    have hn : ((numProj a : ℕ) : Int) = a.years := by
      simp [numProj, Int.toNat_of_nonneg (by omega : (0 : Int) ≤ a.years)]
    refine ⟨?_, ?_, ?_, ?_, ?_, ?_, rfl, yearsList_pairwise b a⟩ <;>
      simp [forecast, forecastU, yearsList, List.map_map, Function.comp, hn]
  · intro h0
    have hn : numProj a = 0 := Int.toNat_eq_zero.mpr (by omega)
    refine ⟨?_, ?_, ?_⟩ <;>
      simp [forecast, forecastU, hn]

/-- C2 witness: shape at a positive horizon and at the degenerate horizon. -/
theorem c2_shape_witness :
    (((forecast bEx aEx).IS.length : Int) = aEx.years + 1 ∧
      (forecast bEx aEx).IS.map Prod.fst = yearsList bEx aEx) ∧
    (forecast bTiny aZero).CF = [(bTiny.year, cfRowBase)] := by
  refine ⟨⟨((c2_shape bEx aEx).1 (by decide)).1, ?_⟩, ?_⟩
  · exact ((c2_shape bEx aEx).1 (by decide)).2.2.2.1
  · exact ((c2_shape bTiny aZero).2 (by decide)).2.2

/-- C5: the spec's worked scenario.  With the given base year (revenue 100,
net income 10, cash 20, long-term debt 30, common equity 50, every other
field arbitrary) and assumptions (one year, 10% growth, the given margin and
rate parameters, the unused working-capital percentages arbitrary), the
returned 2024 income-statement row is Revenue 110.0, EBIT 27.5, Net Income
20.54, and the loop's interest and taxes for 2024 are 1.5 and 5.46. -/
theorem c5_scenario (cogs0 sga0 da0 itr0 taxr0 ar0 inv0 oca0 ppe0 onca0 ap0
    accr0 ocl0 onl0 arp invp app accp : ℚ) :
    let b : BaseYear :=
      { year := 2023, revenue := 100, cogs := cogs0, sga := sga0, da := da0,
        interest := itr0, tax_rate := taxr0, net_income := 10, cash := 20,
        ar := ar0, inventory := inv0, other_current_assets := oca0,
        ppe_net := ppe0, other_noncurrent_assets := onca0, ap := ap0,
        accrued_liabilities := accr0, other_current_liabilities := ocl0,
        long_term_debt := 30, other_noncurrent_liabilities := onl0,
        common_equity := 50 }
    let a : Assumptions :=
      { years := 1, revenue_growth := 1/10, cogs_pct_rev := 1/2,
        sga_pct_rev := 1/5, da_pct_rev := 1/20, interest_pct_debt := 1/20,
        tax_rate := 21/100, ar_pct_rev := arp, inv_pct_rev := invp,
        ap_pct_rev := app, accrued_pct_rev := accp, capex_pct_rev := 3/100,
        target_debt_pct_assets := 1/10 }
    ((forecast b a).IS).lookup (2024 : Int) =
      some { Revenue := some 110, EBIT := some (55/2), NetIncome := some (1027/50) } ∧
    (projAt b a 0).interest = 3/2 ∧
    (projAt b a 0).taxes = 273/50 := by
  intro b a
  have hrev : (projAt b a 0).revenue = 110 := by
    norm_num [projAt, stateAt, baseState, stepYear, b, a]
  have hebit : (projAt b a 0).ebit = 55/2 := by
    norm_num [projAt, stateAt, baseState, stepYear, b, a]
  have hitr : (projAt b a 0).interest = 3/2 := by
    norm_num [projAt, stateAt, baseState, stepYear, b, a]
  have htax : (projAt b a 0).taxes = 273/50 := by
    norm_num [projAt, stateAt, baseState, stepYear, b, a]
  have hni : (projAt b a 0).net_income = 1027/50 := by
    norm_num [projAt, stateAt, baseState, stepYear, b, a]
  refine ⟨?_, hitr, htax⟩
  have hn : numProj a = 1 := by norm_num [numProj, a]
  have hr1 : List.range 1 = [0] := rfl
  have hb1 : ((2024 : Int) == 2023) = false := by decide
  have hb2 : ((2024 : Int) == 2024) = true := by decide
  simp only [forecast, forecastU, hn, hr1, List.map_cons, List.map_nil,
    List.lookup, hb1, hb2]
  norm_num [isRowProj, hrev, hebit, hni]

/-! ### Theorems: base-year normalizer -/

/-- `pairLe` is reflexive. -/
lemma pairLe_refl (x : String × String) : pairLe x x := Or.inr ⟨rfl, le_refl _⟩

/-- `pairLe` is transitive. -/
lemma pairLe_trans {x y z : String × String} (h1 : pairLe x y)
    (h2 : pairLe y z) : pairLe x z := by
  rcases h1 with h1 | ⟨e1, l1⟩
  · rcases h2 with h2 | ⟨e2, l2⟩
    · exact Or.inl (lt_trans h1 h2)
    · exact Or.inl (by rw [← e2]; exact h1)
  · rcases h2 with h2 | ⟨e2, l2⟩
    · exact Or.inl (by rw [e1]; exact h2)
    · exact Or.inr ⟨e1.trans e2, le_trans l1 l2⟩

/-- `pairLe` is total. -/
lemma pairLe_total (x y : String × String) : pairLe x y ∨ pairLe y x := by
  rcases lt_trichotomy x.1 y.1 with h | h | h
  · exact Or.inl (Or.inl h)
  · rcases le_total x.2 y.2 with h2 | h2
    · exact Or.inl (Or.inr ⟨h, h2⟩)
    · exact Or.inr (Or.inr ⟨h.symm, h2⟩)
  · exact Or.inr (Or.inl h)

/-- The fold selecting the sort-maximal record stays inside the list. -/
lemma foldl_pick_mem (xs : List FactRec) : ∀ x : FactRec,
    xs.foldl (fun b r => if pairLe (sortKey b) (sortKey r) then r else b) x ∈
      x :: xs := by
  induction xs with
  | nil => intro x; simp
  | cons y ys ih =>
    intro x
    simp only [List.foldl_cons]
    have h := ih (if pairLe (sortKey x) (sortKey y) then y else x)
    rcases List.mem_cons.mp h with h1 | h1
    · rw [h1]
      by_cases hc : pairLe (sortKey x) (sortKey y) <;> simp [hc]
    · exact List.mem_cons_of_mem _ (List.mem_cons_of_mem _ h1)

/-- The fold's result dominates every listed record in the sort order. -/
lemma foldl_pick_le (xs : List FactRec) : ∀ x : FactRec, ∀ r ∈ x :: xs,
    pairLe (sortKey r)
      (sortKey (xs.foldl
        (fun b r => if pairLe (sortKey b) (sortKey r) then r else b) x)) := by
  induction xs with
  | nil =>
    intro x r hr
    rw [List.mem_singleton] at hr
    subst hr
    simp only [List.foldl_nil]
    exact pairLe_refl _
  | cons y ys ih =>
    intro x r hr
    simp only [List.foldl_cons]
    have hstep : pairLe (sortKey x)
        (sortKey (if pairLe (sortKey x) (sortKey y) then y else x)) := by
      by_cases hc : pairLe (sortKey x) (sortKey y) <;> simp [hc, pairLe_refl]
    have hstep2 : pairLe (sortKey y)
        (sortKey (if pairLe (sortKey x) (sortKey y) then y else x)) := by
      by_cases hc : pairLe (sortKey x) (sortKey y) <;> simp [hc, pairLe_refl]
      rcases pairLe_total (sortKey x) (sortKey y) with h | h
      · exact absurd h hc
      · exact h
    have hin := ih (if pairLe (sortKey x) (sortKey y) then y else x) _
      (List.mem_cons_self _ _)
    rcases List.mem_cons.mp hr with h1 | h1
    · rw [h1]; exact pairLe_trans hstep hin
    · rcases List.mem_cons.mp h1 with h2 | h2
      · rw [h2]; exact pairLe_trans hstep2 hin
      · exact ih _ r (List.mem_cons_of_mem _ h2)

/-- A selected record is one of the candidates. -/
lemma pickBest_mem {l : List FactRec} {r : FactRec} (h : pickBest l = some r) :
    r ∈ l := by
  cases l with
  | nil => simp [pickBest] at h
  | cons x xs =>
    simp only [pickBest, Option.some_inj] at h
    rw [← h]
    exact foldl_pick_mem xs x

/-- A selected record dominates every candidate in the sort order. -/
lemma pickBest_le {l : List FactRec} {r : FactRec} (h : pickBest l = some r) :
    ∀ x ∈ l, pairLe (sortKey x) (sortKey r) := by
  cases l with
  | nil => simp [pickBest] at h
  | cons x xs =>
    simp only [pickBest, Option.some_inj] at h
    rw [← h]
    exact foldl_pick_le xs x

/-- Selection fails exactly on the empty candidate list. -/
lemma pickBest_eq_none {l : List FactRec} : pickBest l = none ↔ l = [] := by
  cases l <;> simp [pickBest]

/-- A successful concept lookup determines the concept's contributed value. -/
lemma conceptVal_of_getC {facts : Facts} {tag : String} {q : ℚ}
    (h : getC facts tag = some q) : conceptVal facts tag = q := by
  unfold getC at h
  unfold conceptVal
  cases hp : pick_latest_annual_usd facts tag with
  | none => rw [hp] at h; simp at h
  | some o =>
    rw [hp] at h
    cases o with
    | none => simpa using h
    | some p => simpa using h

/-- A successful `getAll` returns exactly the contributed concept values. -/
lemma getAll_eq_some (facts : Facts) : ∀ (tags : List String) (l : List ℚ),
    getAll facts tags = some l → l = tags.map (conceptVal facts) := by
  intro tags
  induction tags with
  | nil =>
    intro l h
    simp only [getAll, Option.some_inj] at h
    simp [← h]
  | cons t ts ih =>
    intro l h
    simp only [getAll, Option.bind_eq_some, Option.map_eq_some'] at h
    obtain ⟨v, hv, vs, hvs, hl⟩ := h
    rw [← hl, List.map_cons, ← ih vs hvs, conceptVal_of_getC hv]

/-- The value `build_base_year_from_sec` returns on success with base fiscal
year `y`, written out in terms of the contributed concept values (proved in
`build_eq_some_elim`). -/
def baseYearOf (facts : Facts) (y : Int) : BaseYear :=
  { year := y
    revenue := conceptVal facts "Revenues"
    cogs := conceptVal facts "CostOfRevenue"
    sga := conceptVal facts "SellingGeneralAndAdministrativeExpense"
    da := conceptVal facts "DepreciationDepletionAndAmortization"
    interest := conceptVal facts "InterestExpense"
    tax_rate := 21 / 100
    net_income := conceptVal facts "NetIncomeLoss"
    cash := conceptVal facts "CashAndCashEquivalentsAtCarryingValue"
    ar := conceptVal facts "AccountsReceivableNetCurrent"
    inventory := conceptVal facts "InventoryNet"
    other_current_assets :=
      max 0 (conceptVal facts "Assets" -
        (conceptVal facts "CashAndCashEquivalentsAtCarryingValue" +
         conceptVal facts "AccountsReceivableNetCurrent" +
         conceptVal facts "InventoryNet" +
         conceptVal facts "PropertyPlantAndEquipmentNet")) * (1 / 2)
    ppe_net := conceptVal facts "PropertyPlantAndEquipmentNet"
    other_noncurrent_assets :=
      max 0 (conceptVal facts "Assets" -
        (conceptVal facts "CashAndCashEquivalentsAtCarryingValue" +
         conceptVal facts "AccountsReceivableNetCurrent" +
         conceptVal facts "InventoryNet" +
         conceptVal facts "PropertyPlantAndEquipmentNet")) * (1 / 2)
    ap := conceptVal facts "AccountsPayableCurrent"
    accrued_liabilities := conceptVal facts "AccruedLiabilitiesCurrent"
    other_current_liabilities :=
      max 0 (conceptVal facts "Liabilities" -
        (conceptVal facts "AccountsPayableCurrent" +
         conceptVal facts "AccruedLiabilitiesCurrent" +
         conceptVal facts "LongTermDebtNoncurrent")) * (1 / 2)
    long_term_debt := conceptVal facts "LongTermDebtNoncurrent"
    other_noncurrent_liabilities :=
      max 0 (conceptVal facts "Liabilities" -
        (conceptVal facts "AccountsPayableCurrent" +
         conceptVal facts "AccruedLiabilitiesCurrent" +
         conceptVal facts "LongTermDebtNoncurrent")) * (1 / 2)
    common_equity :=
      if conceptVal facts "StockholdersEquity" = 0 then
        conceptVal facts "Assets" - conceptVal facts "Liabilities"
      else conceptVal facts "StockholdersEquity" }

/-- Failure of any concept lookup aborts the build. -/
lemma build_none_of_getAll_none (facts : Facts)
    (h : getAll facts conceptTags = none) :
    build_base_year_from_sec facts = none := by
  unfold build_base_year_from_sec
  rw [h]

/-- When every concept lookup succeeds, the build reduces to subscripting
the revenue lookup. -/
lemma build_of_getAll_some (facts : Facts)
    (h : getAll facts conceptTags = some (conceptTags.map (conceptVal facts))) :
    build_base_year_from_sec facts =
      (pick_latest_annual_usd facts "Revenues").bind fun yearPick =>
      yearPick.bind fun yv => some (baseYearOf facts yv.1) := by
  unfold build_base_year_from_sec
  rw [h]
  simp only [conceptTags, List.map_cons, List.map_nil]
  rfl

/-- Master elimination: a successful build means the revenue lookup produced
a (year, value) pair and the result is `baseYearOf` at that year. -/
lemma build_eq_some_elim (facts : Facts) (b : BaseYear)
    (h : build_base_year_from_sec facts = some b) :
    ∃ yv : Int × ℚ, pick_latest_annual_usd facts "Revenues" = some (some yv) ∧
      b = baseYearOf facts yv.1 := by
  cases hm : getAll facts conceptTags with
  | none => rw [build_none_of_getAll_none facts hm] at h; exact absurd h (by simp)
  | some l =>
    have hl := getAll_eq_some facts _ _ hm
    rw [hl] at hm
    rw [build_of_getAll_some facts hm] at h
    rw [Option.bind_eq_some] at h
    obtain ⟨yearPick, hp, h⟩ := h
    rw [Option.bind_eq_some] at h
    obtain ⟨yv, hyv, h⟩ := h
    rw [Option.some_inj] at h
    exact ⟨yv, by rw [hp, hyv], h.symm⟩

/-! Concrete facts mappings for the normalizer witnesses and
counterexamples. -/

/-- A well-formed annual USD record for fiscal year 2023 with value `v`. -/
def rec2023 (v : ℚ) : FactRec :=
  { fp := some "FY", end_ := some "2023-12-31", filed := some "2024-02-15",
    fy := some 2023, val := v }

/-- A tag reporting a single annual USD value `v`. -/
def tagOne (v : ℚ) : TagFacts := ⟨[("USD", [rec2023 v])]⟩

/-- Facts with revenue 100, assets 100, cash 10, everything else absent. -/
def facts6 : Facts :=
  [("Revenues", tagOne 100), ("Assets", tagOne 100),
   ("CashAndCashEquivalentsAtCarryingValue", tagOne 10)]

/-- The base year built from `facts6`. -/
def b6 : BaseYear :=
  { year := 2023, revenue := 100, cogs := 0, sga := 0, da := 0, interest := 0,
    tax_rate := 21/100, net_income := 0, cash := 10, ar := 0, inventory := 0,
    other_current_assets := 45, ppe_net := 0, other_noncurrent_assets := 45,
    ap := 0, accrued_liabilities := 0, other_current_liabilities := 0,
    long_term_debt := 0, other_noncurrent_liabilities := 0,
    common_equity := 100 }

/-- Facts with revenue 100, assets 100, liabilities 30 and stockholders'
equity *reported as exactly 0*. -/
def facts9 : Facts :=
  [("Revenues", tagOne 100), ("Assets", tagOne 100),
   ("Liabilities", tagOne 30), ("StockholdersEquity", tagOne 0)]

/-- The base year built from `facts9`. -/
def b9 : BaseYear :=
  { year := 2023, revenue := 100, cogs := 0, sga := 0, da := 0, interest := 0,
    tax_rate := 21/100, net_income := 0, cash := 0, ar := 0, inventory := 0,
    other_current_assets := 50, ppe_net := 0, other_noncurrent_assets := 50,
    ap := 0, accrued_liabilities := 0, other_current_liabilities := 15,
    long_term_debt := 0, other_noncurrent_liabilities := 15,
    common_equity := 70 }

/-- Facts where only revenue is present. -/
def factsR : Facts := [("Revenues", tagOne 100)]

/-- An annual USD record whose fiscal year is not determinable: no `fy`, and
the first four characters of `end` do not parse as an integer. -/
def recBad : FactRec :=
  { fp := some "FY", end_ := some "XXXX-12-31", filed := none, fy := none,
    val := 5 }

/-- The USD record list holding only `recBad`. -/
def itemsBad : List FactRec := [recBad]

/-- Facts whose revenue has an annual USD record, but one with an
undeterminable fiscal year. -/
def factsBad : Facts := [("Revenues", ⟨[("USD", itemsBad)]⟩)]

/-- Annual record for fiscal 2022, value 7. -/
def recA : FactRec :=
  { fp := some "FY", end_ := some "2022-12-31", filed := some "2023-02-10",
    fy := some 2022, val := 7 }

/-- Annual record for fiscal 2023, value 8 — the latest annual record. -/
def recB : FactRec :=
  { fp := some "FY", end_ := some "2023-12-31", filed := some "2024-02-10",
    fy := some 2023, val := 8 }

/-- A quarterly record, to be ignored by the annual filter. -/
def recQ : FactRec :=
  { fp := some "Q1", end_ := some "2024-03-31", filed := some "2024-05-01",
    fy := some 2024, val := 9 }

/-- USD records: two annual, one quarterly. -/
def items10 : List FactRec := [recA, recQ, recB]

/-- Facts with a EUR unit (ignored) and the USD records `items10`. -/
def facts10 : Facts := [("Revenues", ⟨[("EUR", [recA]), ("USD", items10)]⟩)]

/-- C6: whenever the build succeeds, the unattributed asset and liability
residuals are floored at zero and split exactly 50/50 between the current
and non-current synthetic buckets. -/
theorem c6_residual_split (facts : Facts) (b : BaseYear)
    (h : build_base_year_from_sec facts = some b) :
    b.other_current_assets =
      max 0 (conceptVal facts "Assets" -
        (conceptVal facts "CashAndCashEquivalentsAtCarryingValue" +
         conceptVal facts "AccountsReceivableNetCurrent" +
         conceptVal facts "InventoryNet" +
         conceptVal facts "PropertyPlantAndEquipmentNet")) * (1 / 2) ∧
    b.other_noncurrent_assets = b.other_current_assets ∧
    b.other_current_liabilities =
      max 0 (conceptVal facts "Liabilities" -
        (conceptVal facts "AccountsPayableCurrent" +
         conceptVal facts "AccruedLiabilitiesCurrent" +
         conceptVal facts "LongTermDebtNoncurrent")) * (1 / 2) ∧
    b.other_noncurrent_liabilities = b.other_current_liabilities := by
  obtain ⟨yv, hp, rfl⟩ := build_eq_some_elim facts b h
  exact ⟨rfl, rfl, rfl, rfl⟩

/-- C6 witness: the split at `facts6` (residual assets 90, split 45/45). -/
theorem c6_residual_split_witness :
    b6.other_current_assets =
      max 0 (conceptVal facts6 "Assets" -
        (conceptVal facts6 "CashAndCashEquivalentsAtCarryingValue" +
         conceptVal facts6 "AccountsReceivableNetCurrent" +
         conceptVal facts6 "InventoryNet" +
         conceptVal facts6 "PropertyPlantAndEquipmentNet")) * (1 / 2) ∧
    b6.other_noncurrent_assets = b6.other_current_assets ∧
    b6.other_current_liabilities =
      max 0 (conceptVal facts6 "Liabilities" -
        (conceptVal facts6 "AccountsPayableCurrent" +
         conceptVal facts6 "AccruedLiabilitiesCurrent" +
         conceptVal facts6 "LongTermDebtNoncurrent")) * (1 / 2) ∧
    b6.other_noncurrent_liabilities = b6.other_current_liabilities :=
  c6_residual_split facts6 b6 (by with_unfolding_all decide)

/-- C9: the Python-truthiness equity fallback.  When stockholders' equity is
*reported* with value exactly 0 and the build succeeds, the produced common
equity is total assets minus total liabilities, not the reported 0. -/
theorem c9_zero_equity_fallback (facts : Facts) (b : BaseYear) (y : Int)
    (hz : pick_latest_annual_usd facts "StockholdersEquity" = some (some (y, 0)))
    (h : build_base_year_from_sec facts = some b) :
    b.common_equity = conceptVal facts "Assets" - conceptVal facts "Liabilities" := by
  obtain ⟨yv, hp, rfl⟩ := build_eq_some_elim facts b h
  have h0 : conceptVal facts "StockholdersEquity" = 0 := by
    simp [conceptVal, hz]
  simp [baseYearOf, h0]

/-- C9 witness: `facts9` reports equity 0 and the build keeps 100 − 30 = 70,
not the reported 0. -/
theorem c9_zero_equity_fallback_witness :
    (b9.common_equity =
      conceptVal facts9 "Assets" - conceptVal facts9 "Liabilities") ∧
    b9.common_equity = 70 :=
  ⟨c9_zero_equity_fallback facts9 b9 2023 (by with_unfolding_all decide)
      (by with_unfolding_all decide),
    by with_unfolding_all decide⟩

/-- Lookup misses make the per-concept result Python `None`. -/
lemma pick_of_lookupUSD_none {facts : Facts} {tag : String}
    (h : lookupUSD facts tag = none) :
    pick_latest_annual_usd facts tag = some none := by
  simp [pick_latest_annual_usd, h]

/-- A failing first lookup short-circuits `getAll`. -/
lemma getAll_cons_none {facts : Facts} {t : String} {ts : List String}
    (h : getC facts t = none) : getAll facts (t :: ts) = none := by
  simp [getAll, h]

/-- One step of `getAll` with both pieces known. -/
lemma getAll_cons {facts : Facts} {t : String} {ts : List String} {v : ℚ}
    {l : List ℚ} (h1 : getC facts t = some v) (h2 : getAll facts ts = some l) :
    getAll facts (t :: ts) = some (v :: l) := by
  simp [getAll, h1, h2]

/-- C7 (amended): the build fails when revenue's annual record is missing
(`pick` returns `None`) and also when revenue's latest annual record has no
determinable fiscal year (`pick` raises); when the revenue lookup yields a
(year, value) pair and every other concept is absent, the build succeeds
with every absent concept defaulted to 0.0. -/
theorem c7_failure_modes (facts : Facts) :
    (pick_latest_annual_usd facts "Revenues" = some none →
      build_base_year_from_sec facts = none) ∧
    (pick_latest_annual_usd facts "Revenues" = none →
      build_base_year_from_sec facts = none) ∧
    (∀ y v, pick_latest_annual_usd facts "Revenues" = some (some (y, v)) →
      (∀ tag, tag ≠ "Revenues" → lookupUSD facts tag = none) →
      build_base_year_from_sec facts =
        some { year := y, revenue := v, cogs := 0, sga := 0, da := 0,
               interest := 0, tax_rate := 21/100, net_income := 0, cash := 0,
               ar := 0, inventory := 0, other_current_assets := 0,
               ppe_net := 0, other_noncurrent_assets := 0, ap := 0,
               accrued_liabilities := 0, other_current_liabilities := 0,
               long_term_debt := 0, other_noncurrent_liabilities := 0,
               common_equity := 0 }) := by
  refine ⟨?_, ?_, ?_⟩
  · intro hp
    cases hm : getAll facts conceptTags with
    | none => exact build_none_of_getAll_none facts hm
    | some l =>
      have hl := getAll_eq_some facts _ _ hm
      rw [hl] at hm
      rw [build_of_getAll_some facts hm, hp]
      rfl
  · intro hp
    have hg : getC facts "Revenues" = none := by simp [getC, hp]
    exact build_none_of_getAll_none facts (getAll_cons_none hg)
  · intro y v hp habs
    have hg : ∀ tag, tag ≠ "Revenues" → getC facts tag = some 0 := by
      intro tag ht
      simp [getC, pick_of_lookupUSD_none (habs tag ht)]
    have hrev : getC facts "Revenues" = some v := by simp [getC, hp]
    have hm : getAll facts conceptTags =
        some [v, 0, 0, 0, 0, 0, 0, 0, 0, 0, 0, 0, 0, 0, 0, 0] :=
      getAll_cons hrev (getAll_cons (hg _ (by decide))
        (getAll_cons (hg _ (by decide)) (getAll_cons (hg _ (by decide))
        (getAll_cons (hg _ (by decide)) (getAll_cons (hg _ (by decide))
        (getAll_cons (hg _ (by decide)) (getAll_cons (hg _ (by decide))
        (getAll_cons (hg _ (by decide)) (getAll_cons (hg _ (by decide))
        (getAll_cons (hg _ (by decide)) (getAll_cons (hg _ (by decide))
        (getAll_cons (hg _ (by decide)) (getAll_cons (hg _ (by decide))
        (getAll_cons (hg _ (by decide)) (getAll_cons (hg _ (by decide))
          rfl)))))))))))))))
    unfold build_base_year_from_sec
    rw [hm]
    simp only [hp]
    norm_num

/-- C7 witness: with only revenue reported (fiscal 2023, value 100), the
build succeeds and every other concept defaults to 0.0. -/
theorem c7_failure_modes_witness :
    build_base_year_from_sec factsR =
      some { year := 2023, revenue := 100, cogs := 0, sga := 0, da := 0,
             interest := 0, tax_rate := 21/100, net_income := 0, cash := 0,
             ar := 0, inventory := 0, other_current_assets := 0, ppe_net := 0,
             other_noncurrent_assets := 0, ap := 0, accrued_liabilities := 0,
             other_current_liabilities := 0, long_term_debt := 0,
             other_noncurrent_liabilities := 0, common_equity := 0 } := by
  refine (c7_failure_modes factsR).2.2 2023 100 ?_ ?_
  · with_unfolding_all decide
  · intro tag ht
    have hb : (tag == "Revenues") = false := beq_eq_false_iff_ne.mpr ht
    simp [lookupUSD, factsR, List.lookup, hb]

/-- C7 counterexample: `factsBad`'s revenue *does* have an annual USD
record, yet the build fails (the year subexpression raises), contradicting
the claim that the call succeeds whenever revenue has an annual record. -/
theorem c7_failure_modes_counterexample :
    ((lookupUSD factsBad "Revenues").getD []).any isFY = true ∧
    build_base_year_from_sec factsBad = none := by
  with_unfolding_all decide

/-- C10 (amended): the per-concept lookup returns `None` exactly when the
tag has no USD unit entry or its USD records contain no `fp == "FY"` record;
otherwise the sort-maximal annual record (by the `(end, filed)` string pair)
is selected, and its (fiscal year, value) pair is returned provided its
fiscal year is determinable — if not, the lookup raises instead of
returning. -/
theorem c10_latest_annual_selection (facts : Facts) (tag : String) :
    (lookupUSD facts tag = none → pick_latest_annual_usd facts tag = some none) ∧
    (∀ items, lookupUSD facts tag = some items →
      (items.filter isFY = [] → pick_latest_annual_usd facts tag = some none) ∧
      (pick_latest_annual_usd facts tag = some none → items.filter isFY = []) ∧
      (∀ best, pickBest (items.filter isFY) = some best →
        best ∈ items.filter isFY ∧
        (∀ r ∈ items.filter isFY, pairLe (sortKey r) (sortKey best)) ∧
        pick_latest_annual_usd facts tag =
          (recYear best).map fun y => some (y, best.val))) := by
  constructor
  · intro h
    simp [pick_latest_annual_usd, h]
  · intro items hit
    refine ⟨?_, ?_, ?_⟩
    · intro hf
      simp [pick_latest_annual_usd, hit, hf, pickBest]
    · intro hp
      cases hb : pickBest (items.filter isFY) with
      | none => exact pickBest_eq_none.mp hb
      | some best =>
        exfalso
        simp only [pick_latest_annual_usd, hit, hb] at hp
        cases hy : recYear best with
        | none => rw [hy] at hp; simp at hp
        | some yy => rw [hy] at hp; simp at hp
    · intro best hb
      exact ⟨pickBest_mem hb, pickBest_le hb,
        by simp [pick_latest_annual_usd, hit, hb]⟩

/-- C10 witness: among `facts10`'s USD records the quarterly one is ignored
and the fiscal-2023 annual record (later `(end, filed)` pair) is selected
and returned. -/
theorem c10_latest_annual_selection_witness :
    recB ∈ items10.filter isFY ∧
    pick_latest_annual_usd facts10 "Revenues" = some (some (2023, 8)) := by
  have h := ((c10_latest_annual_selection facts10 "Revenues").2 items10
    (by with_unfolding_all decide)).2.2 recB (by with_unfolding_all decide)
  refine ⟨h.1, ?_⟩
  rw [h.2.2]
  with_unfolding_all decide

/-- C10 counterexample: at `factsBad` a qualifying annual record exists and
is selected, yet no (year, value) pair is returned — the lookup raises on
the unparseable year — contradicting the claim that the maximal qualifying
record is returned. -/
theorem c10_latest_annual_selection_counterexample :
    itemsBad.filter isFY ≠ [] ∧
    pickBest (itemsBad.filter isFY) = some recBad ∧
    pick_latest_annual_usd factsBad "Revenues" = none := by
  with_unfolding_all decide

end ThreeStmt
